import Mathlib

/-!
Verification development for the eco-log material/coating matching and UBP
aggregation engine (`src/matcher.py`, `src/calculator.py`).

The Python code is shallowly embedded: dictionaries become ordered
association lists (Python dicts iterate in insertion order), floats become
rationals, `None`/NaN numeric cells become `Option ℚ`, and Python string
operations (`strip`, `upper`, `lower`, substring `in`) are modelled over
character lists so that the kernel can evaluate them.
-/

namespace EcoLog

/-! ## String primitives (models of Python `str` operations) -/

/-- `charsPre pat s` : `pat` is a prefix of `s` (over character lists). -/
def charsPre : List Char → List Char → Bool
  | [], _ => true
  | _ :: _, [] => false
  | p :: ps, c :: cs => p == c && charsPre ps cs

/-- `charsIn pat s` : `pat` occurs contiguously somewhere in `s`
(model of Python `pat in s`; the empty pattern occurs everywhere). -/
def charsIn (pat : List Char) : List Char → Bool
  | [] => pat.isEmpty
  | c :: cs => charsPre pat (c :: cs) || charsIn pat cs

/-- Model of Python `pat in s` on strings. -/
def strIn (pat s : String) : Bool := charsIn pat.data s.data

/-- Model of Python `s.upper()` (ASCII case mapping suffices for the codes used). -/
def upper (s : String) : String := String.mk (s.data.map Char.toUpper)

/-- Model of Python `s.lower()`. -/
def lower (s : String) : String := String.mk (s.data.map Char.toLower)

/-- Model of Python `s.strip()`: drop whitespace from both ends. -/
def strip (s : String) : String :=
  String.mk (((s.data.dropWhile Char.isWhitespace).reverse.dropWhile Char.isWhitespace).reverse)

/-- Ordered-dictionary lookup (Python `d[k]` guarded by `k in d`). -/
def dictLookup (k : String) : List (String × α) → Option α
  | [] => none
  | (k2, v) :: rest => if k2 = k then some v else dictLookup k rest

/-! ## Data model of `matcher.py` -/

/-- Result of a material matching attempt (`MaterialMatch` dataclass). -/
structure MaterialMatch where
  matched : Bool
  oeko_id : Option String := none
  oeko_name : Option String := none
  ubp_per_kg : Option ℚ := none
  category : Option String := none
  match_type : String := "none"
deriving DecidableEq

/-- Result of a coating matching attempt (`CoatingMatch` dataclass). -/
structure CoatingMatch where
  matched : Bool
  oeko_id : Option String := none
  oeko_name : Option String := none
  ubp_per_m2 : Option ℚ := none
deriving DecidableEq

/-- A `materials` table entry: `{oeko_id, oeko_name, ubp_per_kg, category?}`.
`category` is optional because the code reads it with `.get("category", "unknown")`. -/
structure MatEntry where
  oeko_id : String
  oeko_name : String
  ubp_per_kg : ℚ
  category : Option String := none
deriving DecidableEq

/-- The `"steel"` sub-entry of a `type_overrides` value. -/
structure SteelOverride where
  oeko_id : String
  oeko_name : String
  ubp_per_kg : ℚ
deriving DecidableEq

/-- The `type_fallback["fasteners"]` rule block. -/
structure FastenerRules where
  types : List String := []
  keywords : List String := []
  oeko_id : String
  oeko_name : String
  ubp_per_kg : ℚ
deriving DecidableEq

/-- The `type_fallback["plastic"]` rule block. -/
structure PlasticRules where
  keywords : List String := []
  oeko_id : String
  oeko_name : String
  ubp_per_kg : ℚ
deriving DecidableEq

/-- A `coatings` (or `coating_aluminum_override`) table entry. -/
structure CoatingEntry where
  oeko_id : String
  oeko_name : String
  ubp_per_m2 : ℚ
deriving DecidableEq

/-- The loaded reference mapping store (the tables a `MaterialMatcher` holds
after `_load_mappings`). A `type_overrides` value is `some ov` when the JSON
object has a `"steel"` sub-entry and `none` otherwise. -/
structure MappingStore where
  materials : List (String × MatEntry) := []
  type_overrides : List (String × Option SteelOverride) := []
  fasteners : Option FastenerRules := none
  plastic : Option PlasticRules := none
  coatings : List (String × CoatingEntry) := []
  coating_alu_override : List (String × CoatingEntry) := []
deriving DecidableEq

/-! ## Matcher (`MaterialMatcher` methods) -/

/-- `MaterialMatcher._normalize`. Defined in the source but never called by
`match_material` or `match_coating`; kept here to mirror the source. -/
def normalize (text : String) : String :=
  if text = "" then "" else upper (strip text)

/-- `MaterialMatcher._is_aluminum`. -/
def is_aluminum (material : String) : Bool :=
  let mat_upper := upper material
  ["AL", "ALUMINIUM", "ALUMINUM", "LEICHTMETALL", "AW-6060", "AL99"].any
    fun keyword => strIn keyword mat_upper

/-- `MaterialMatcher._is_steel`. -/
def is_steel (material : String) : Bool :=
  let mat_upper := upper material
  ["S235", "S355", "STAHL", "STEEL", "METALL ALLGEMEIN"].any
    fun keyword => strIn keyword mat_upper

/-- `MaterialMatcher._get_base_category`. -/
def get_base_category (material : String) : String :=
  let mat_upper := upper material
  if strIn "X5CRNI" mat_upper || mat_upper = "304" then "stainless_steel"
  else if is_aluminum material then "aluminum"
  else if is_steel material then "steel"
  else "unknown"

/-- The `MaterialMatch` built when a steel sheet-type override fires. -/
def override_result (ov : SteelOverride) : MaterialMatch :=
  { matched := true, oeko_id := some ov.oeko_id, oeko_name := some ov.oeko_name,
    ubp_per_kg := some ov.ubp_per_kg, category := some "steel_sheet",
    match_type := "type_override" }

/-- The loop body of `_check_type_override`: scan `type_overrides` in order;
a rule fires when its key occurs in the type string (case-insensitive), the
base category is plain `"steel"`, and the rule has a `"steel"` sub-entry. -/
def find_type_override (category typ : String) :
    List (String × Option SteelOverride) → Option MaterialMatch
  | [] => none
  | (type_key, override_data) :: rest =>
    if strIn (lower type_key) (lower typ) then
      if category = "steel" then
        match override_data with
        | some ov => some (override_result ov)
        | none => find_type_override category typ rest
      else find_type_override category typ rest
    else find_type_override category typ rest

/-- `MaterialMatcher._check_type_override`. -/
def check_type_override (store : MappingStore) (material typ : String) :
    Option MaterialMatch :=
  find_type_override (get_base_category material) typ store.type_overrides

/-- The `MaterialMatch` built when the fastener fallback fires. -/
def fastener_result (f : FastenerRules) : MaterialMatch :=
  { matched := true, oeko_id := some f.oeko_id, oeko_name := some f.oeko_name,
    ubp_per_kg := some f.ubp_per_kg, category := some "fastener",
    match_type := "type_fallback" }

/-- The `MaterialMatch` built when the plastic fallback fires. -/
def plastic_result (p : PlasticRules) : MaterialMatch :=
  { matched := true, oeko_id := some p.oeko_id, oeko_name := some p.oeko_name,
    ubp_per_kg := some p.ubp_per_kg, category := some "plastic",
    match_type := "type_fallback" }

/-- The plastic-keyword step of `_check_type_fallback` (description only). -/
def check_plastic (plastic : Option PlasticRules) (bezeichnung : String) :
    Option MaterialMatch :=
  match plastic with
  | some p =>
    if bezeichnung ≠ "" && p.keywords.any (fun kw => strIn (lower kw) (lower bezeichnung)) then
      some (plastic_result p)
    else none
  | none => none

/-- `MaterialMatcher._check_type_fallback`: fastener types against the type
field, then fastener keywords against the description, then plastic keywords
against the description; first hit wins. -/
def check_type_fallback (store : MappingStore) (typ bezeichnung : String) :
    Option MaterialMatch :=
  match store.fasteners with
  | some f =>
    if typ ≠ "" && f.types.any (fun ft => strIn (lower ft) (lower typ)) then
      some (fastener_result f)
    else if bezeichnung ≠ "" && f.keywords.any (fun kw => strIn (lower kw) (lower bezeichnung)) then
      some (fastener_result f)
    else check_plastic store.plastic bezeichnung
  | none => check_plastic store.plastic bezeichnung

/-- `MaterialMatcher.match_material`. -/
def match_material (store : MappingStore) (material typ bezeichnung : String) :
    MaterialMatch :=
  let material := strip material
  let typ := strip typ
  let bezeichnung := strip bezeichnung
  if material = "" ∨ material = " " then
    match check_type_fallback store typ bezeichnung with
    | some m => m
    | none => { matched := false, match_type := "empty" }
  else
    match dictLookup material store.materials with
    | some mat_data =>
      match check_type_override store material typ with
      | some m => m
      | none =>
        { matched := true, oeko_id := some mat_data.oeko_id,
          oeko_name := some mat_data.oeko_name,
          ubp_per_kg := some mat_data.ubp_per_kg,
          category := some (mat_data.category.getD "unknown"),
          match_type := "exact" }
    | none => { matched := false, match_type := "no_mapping" }

/-- The `CoatingMatch` built from a coating table entry. -/
def coating_result (c : CoatingEntry) : CoatingMatch :=
  { matched := true, oeko_id := some c.oeko_id, oeko_name := some c.oeko_name,
    ubp_per_m2 := some c.ubp_per_m2 }

/-- The loop body of `match_coating`: scan `coatings` in order; the first key
occurring in the lowercased descriptor wins; an aluminum material takes the
`coating_aluminum_override` entry for that key when one exists. -/
def find_coating (alu_override : List (String × CoatingEntry)) (is_alu : Bool)
    (beschichtung_lower : String) : List (String × CoatingEntry) → CoatingMatch
  | [] => { matched := false }
  | (coating_key, coating_data) :: rest =>
    if strIn (lower coating_key) beschichtung_lower then
      if is_alu then
        match dictLookup coating_key alu_override with
        | some alu_data => coating_result alu_data
        | none => coating_result coating_data
      else coating_result coating_data
    else find_coating alu_override is_alu beschichtung_lower rest

/-- `MaterialMatcher.match_coating`. -/
def match_coating (store : MappingStore) (beschichtung material : String) :
    CoatingMatch :=
  if beschichtung = "" ∨ strip beschichtung = "" then { matched := false }
  else
    find_coating store.coating_alu_override (is_aluminum material)
      (lower beschichtung) store.coatings

/-! ## Data model of `calculator.py` -/

/-- One parsed input row (a `ComponentRecord`). `none` in a numeric cell
models the NaN/missing values `_calculate_component` coerces to `0.0`. -/
structure InputRow where
  pos : ℚ := 0
  anzahl : Int := 1
  bezeichnung : String := ""
  material : String := ""
  typ : String := ""
  beschichtung : String := ""
  ges_gewicht_kg : Option ℚ := none
  flaeche_m2 : Option ℚ := none
deriving DecidableEq

/-- `ComponentResult` dataclass. -/
structure ComponentResult where
  pos : ℚ
  anzahl : Int
  bezeichnung : String
  material : String
  typ : String
  beschichtung : String
  ges_gewicht_kg : ℚ
  flaeche_m2 : ℚ
  material_matched : Bool := false
  material_oeko_name : Option String := none
  material_ubp_per_kg : Option ℚ := none
  coating_matched : Bool := false
  coating_oeko_name : Option String := none
  coating_ubp_per_m2 : Option ℚ := none
  ubp_material : ℚ := 0
  ubp_coating : ℚ := 0
  ubp_total : ℚ := 0
  unmatched_reason : String := ""
deriving DecidableEq

/-- A `by_material` bucket. -/
structure MatAgg where
  ubp : ℚ := 0
  weight_kg : ℚ := 0
  count : Nat := 0
deriving DecidableEq

/-- A `by_type` bucket. -/
structure TypeAgg where
  ubp : ℚ := 0
  count : Nat := 0
deriving DecidableEq

/-- A `by_coating` bucket. -/
structure CoatAgg where
  ubp : ℚ := 0
  area_m2 : ℚ := 0
  count : Nat := 0
deriving DecidableEq

/-- An entry of the `unmatched` list. -/
structure UnmatchedEntry where
  pos : ℚ
  material : String
  typ : String
  weight_kg : ℚ
  reason : String
deriving DecidableEq

/-- `CalculationResults` dataclass. -/
structure CalculationResults where
  components : List ComponentResult := []
  total_ubp : ℚ := 0
  total_weight_kg : ℚ := 0
  total_area_m2 : ℚ := 0
  components_matched : Nat := 0
  components_total : Nat := 0
  match_rate : ℚ := 0
  by_material : List (String × MatAgg) := []
  by_coating : List (String × CoatAgg) := []
  by_type : List (String × TypeAgg) := []
  unmatched : List UnmatchedEntry := []
deriving DecidableEq

/-! ## Calculator (`UBPCalculator` methods) -/

/-- `UBPCalculator._calculate_component`.
Python writes `weight * (match.ubp_per_kg or 0)`; `or 0` maps `None` to `0`
(and `0.0` to `0`), which `Option.getD 0` reproduces. -/
def calculate_component (store : MappingStore) (row : InputRow) : ComponentResult :=
  let ges_gewicht_kg := row.ges_gewicht_kg.getD 0
  let flaeche_m2 := row.flaeche_m2.getD 0
  let mat_match := match_material store row.material row.typ row.bezeichnung
  let coat_match := match_coating store row.beschichtung row.material
  let ubp_material := if mat_match.matched then ges_gewicht_kg * (mat_match.ubp_per_kg.getD 0) else 0
  let ubp_coating := if coat_match.matched then flaeche_m2 * (coat_match.ubp_per_m2.getD 0) else 0
  { pos := row.pos, anzahl := row.anzahl, bezeichnung := row.bezeichnung,
    material := row.material, typ := row.typ, beschichtung := row.beschichtung,
    ges_gewicht_kg := ges_gewicht_kg, flaeche_m2 := flaeche_m2,
    material_matched := mat_match.matched,
    material_oeko_name := if mat_match.matched then mat_match.oeko_name else none,
    material_ubp_per_kg := if mat_match.matched then mat_match.ubp_per_kg else none,
    coating_matched := coat_match.matched,
    coating_oeko_name := if coat_match.matched then coat_match.oeko_name else none,
    coating_ubp_per_m2 := if coat_match.matched then coat_match.ubp_per_m2 else none,
    ubp_material := ubp_material, ubp_coating := ubp_coating,
    ubp_total := ubp_material + ubp_coating,
    unmatched_reason := if mat_match.matched then "" else mat_match.match_type }

/-- Model of Python `x or "Unknown"` on an optional name (`None` and the
empty string are both falsy). -/
def or_unknown (s : Option String) : String :=
  match s with
  | some v => if v = "" then "Unknown" else v
  | none => "Unknown"

/-- Ordered-dictionary upsert: Python inserts a zero bucket for a missing
key (appending at the end, insertion order), then updates it in place. -/
def upsert (key : String) (d : List (String × α)) (dflt : α) (f : α → α) :
    List (String × α) :=
  match d with
  | [] => [(key, f dflt)]
  | (k, v) :: rest =>
    if k = key then (k, f v) :: rest else (k, v) :: upsert key rest dflt f

/-- One iteration of the `calculate` loop over a row. -/
def calc_step (store : MappingStore) (results : CalculationResults) (row : InputRow) :
    CalculationResults :=
  let comp := calculate_component store row
  let results := { results with
    components := results.components ++ [comp],
    total_ubp := results.total_ubp + comp.ubp_total,
    total_weight_kg := results.total_weight_kg + comp.ges_gewicht_kg,
    total_area_m2 := results.total_area_m2 + comp.flaeche_m2 }
  let results :=
    if comp.material_matched then
      { results with
        components_matched := results.components_matched + 1,
        by_material := upsert (or_unknown comp.material_oeko_name) results.by_material {}
          (fun a => { ubp := a.ubp + comp.ubp_material,
                      weight_kg := a.weight_kg + comp.ges_gewicht_kg,
                      count := a.count + 1 }),
        by_type := upsert (if comp.typ = "" then "Unknown" else comp.typ) results.by_type {}
          (fun a => { ubp := a.ubp + comp.ubp_total, count := a.count + 1 }) }
    else
      { results with
        unmatched := results.unmatched ++
          [{ pos := comp.pos, material := comp.material, typ := comp.typ,
             weight_kg := comp.ges_gewicht_kg, reason := comp.unmatched_reason }] }
  if comp.coating_matched then
    { results with
      by_coating := upsert (or_unknown comp.coating_oeko_name) results.by_coating {}
        (fun a => { ubp := a.ubp + comp.ubp_coating,
                    area_m2 := a.area_m2 + comp.flaeche_m2,
                    count := a.count + 1 }) }
  else results

/-- `UBPCalculator.calculate`. -/
def calculate (store : MappingStore) (rows : List InputRow) : CalculationResults :=
  let init : CalculationResults := { components_total := rows.length }
  let results := rows.foldl (calc_step store) init
  if results.components_total > 0 then
    { results with
      match_rate := (results.components_matched : ℚ) / (results.components_total : ℚ) }
  else results

/-! ## Concrete demonstration data (shaped like `data/material_map.json`) -/

/-- A steel sheet-type override entry. -/
def demoSheetOverride : SteelOverride :=
  { oeko_id := "KBOB-ST02", oeko_name := "Stahlblech verzinkt", ubp_per_kg := 790 }

/-- A stainless-steel material entry. -/
def demoStainless : MatEntry :=
  { oeko_id := "KBOB-MG05", oeko_name := "Chromstahl rostfrei", ubp_per_kg := 5210,
    category := some "stainless_steel" }

/-- A plain-steel material entry. -/
def demoSteel : MatEntry :=
  { oeko_id := "KBOB-ST01", oeko_name := "Stahlprofil", ubp_per_kg := 630,
    category := some "steel" }

/-- A small mapping store exercising every rule table. -/
def demoStore : MappingStore :=
  { materials := [("S235JR", demoSteel), ("304", demoStainless), ("X5CrNi18-10", demoStainless)],
    type_overrides := [("blech", some demoSheetOverride)],
    fasteners := some { types := ["schraube", "scheiben"], keywords := ["mutter"],
                        oeko_id := "KBOB-SR01", oeko_name := "Schrauben", ubp_per_kg := 1140 },
    plastic := some { keywords := ["kunststoff"], oeko_id := "KBOB-KU01",
                      oeko_name := "Kunststoffprofil", ubp_per_kg := 2440 },
    coatings := [("verzink", { oeko_id := "KBOB-BE01", oeko_name := "Feuerverzinkung", ubp_per_m2 := 81 }),
                 ("pulverb", { oeko_id := "KBOB-BE02", oeko_name := "Pulverbeschichtung", ubp_per_m2 := 160 })],
    coating_alu_override :=
      [("pulverb", { oeko_id := "KBOB-BE03", oeko_name := "Pulverbeschichtung Alu", ubp_per_m2 := 210 })] }

/-- A fully matched input row. -/
def demoRow : InputRow :=
  { pos := 1, anzahl := 2, bezeichnung := "UPE 300", material := "S235JR",
    typ := "U - Profile", beschichtung := "feuerverzinkt",
    ges_gewicht_kg := some 100, flaeche_m2 := some 2 }

/-- An input row whose material has no mapping and whose area cell is missing. -/
def demoRowUnmatched : InputRow :=
  { pos := 2, material := "UNOBTAINIUM", typ := "Sonstiges",
    ges_gewicht_kg := some 5, flaeche_m2 := none }

/-! ## Shared structural lemmas about the calculation loop -/

theorem calc_step_components (store : MappingStore) (res : CalculationResults) (row : InputRow) :
    (calc_step store res row).components = res.components ++ [calculate_component store row] := by
  simp only [calc_step]
  split <;> split <;> rfl

theorem calc_step_total_ubp (store : MappingStore) (res : CalculationResults) (row : InputRow) :
    (calc_step store res row).total_ubp
      = res.total_ubp + (calculate_component store row).ubp_total := by
  simp only [calc_step]
  split <;> split <;> rfl

theorem calc_step_total_weight (store : MappingStore) (res : CalculationResults) (row : InputRow) :
    (calc_step store res row).total_weight_kg
      = res.total_weight_kg + (calculate_component store row).ges_gewicht_kg := by
  simp only [calc_step]
  split <;> split <;> rfl

theorem calc_step_total_area (store : MappingStore) (res : CalculationResults) (row : InputRow) :
    (calc_step store res row).total_area_m2
      = res.total_area_m2 + (calculate_component store row).flaeche_m2 := by
  simp only [calc_step]
  split <;> split <;> rfl

theorem calc_step_components_total (store : MappingStore) (res : CalculationResults) (row : InputRow) :
    (calc_step store res row).components_total = res.components_total := by
  simp only [calc_step]
  split <;> split <;> rfl

theorem calc_step_match_rate (store : MappingStore) (res : CalculationResults) (row : InputRow) :
    (calc_step store res row).match_rate = res.match_rate := by
  simp only [calc_step]
  split <;> split <;> rfl

theorem calc_step_counts (store : MappingStore) (res : CalculationResults) (row : InputRow) :
    (calc_step store res row).components_matched + ((calc_step store res row).unmatched).length
      = res.components_matched + res.unmatched.length + 1 := by
  simp only [calc_step]
  split <;> split <;> simp [List.length_append] <;> omega

theorem foldl_components (store : MappingStore) (rows : List InputRow) :
    ∀ res : CalculationResults,
      (rows.foldl (calc_step store) res).components
        = res.components ++ rows.map (calculate_component store) := by
  induction rows with
  | nil => intro res; simp
  | cons r rs ih =>
    intro res
    simp only [List.foldl_cons, List.map_cons]
    rw [ih, calc_step_components]
    simp

theorem foldl_total_ubp (store : MappingStore) (rows : List InputRow) :
    ∀ res : CalculationResults,
      (rows.foldl (calc_step store) res).total_ubp
        = res.total_ubp + (rows.map fun r => (calculate_component store r).ubp_total).sum := by
  induction rows with
  | nil => intro res; simp
  | cons r rs ih =>
    intro res
    simp only [List.foldl_cons, List.map_cons, List.sum_cons]
    rw [ih, calc_step_total_ubp, add_assoc]

theorem foldl_total_weight (store : MappingStore) (rows : List InputRow) :
    ∀ res : CalculationResults,
      (rows.foldl (calc_step store) res).total_weight_kg
        = res.total_weight_kg
          + (rows.map fun r => (calculate_component store r).ges_gewicht_kg).sum := by
  induction rows with
  | nil => intro res; simp
  | cons r rs ih =>
    intro res
    simp only [List.foldl_cons, List.map_cons, List.sum_cons]
    rw [ih, calc_step_total_weight, add_assoc]

theorem foldl_total_area (store : MappingStore) (rows : List InputRow) :
    ∀ res : CalculationResults,
      (rows.foldl (calc_step store) res).total_area_m2
        = res.total_area_m2
          + (rows.map fun r => (calculate_component store r).flaeche_m2).sum := by
  induction rows with
  | nil => intro res; simp
  | cons r rs ih =>
    intro res
    simp only [List.foldl_cons, List.map_cons, List.sum_cons]
    rw [ih, calc_step_total_area, add_assoc]

theorem foldl_components_total (store : MappingStore) (rows : List InputRow) :
    ∀ res : CalculationResults,
      (rows.foldl (calc_step store) res).components_total = res.components_total := by
  induction rows with
  | nil => intro res; rfl
  | cons r rs ih =>
    intro res
    simp only [List.foldl_cons]
    rw [ih, calc_step_components_total]

theorem foldl_match_rate (store : MappingStore) (rows : List InputRow) :
    ∀ res : CalculationResults,
      (rows.foldl (calc_step store) res).match_rate = res.match_rate := by
  induction rows with
  | nil => intro res; rfl
  | cons r rs ih =>
    intro res
    simp only [List.foldl_cons]
    rw [ih, calc_step_match_rate]

theorem foldl_counts (store : MappingStore) (rows : List InputRow) :
    ∀ res : CalculationResults,
      (rows.foldl (calc_step store) res).components_matched
          + ((rows.foldl (calc_step store) res).unmatched).length
        = res.components_matched + res.unmatched.length + rows.length := by
  induction rows with
  | nil => intro res; rfl
  | cons r rs ih =>
    intro res
    simp only [List.foldl_cons, List.length_cons]
    rw [ih, calc_step_counts]
    omega

theorem calculate_components (store : MappingStore) (rows : List InputRow) :
    (calculate store rows).components = rows.map (calculate_component store) := by
  simp only [calculate]
  split <;> simp [foldl_components]

theorem calculate_components_total (store : MappingStore) (rows : List InputRow) :
    (calculate store rows).components_total = rows.length := by
  simp only [calculate]
  split <;> simp [foldl_components_total]

theorem calculate_counts (store : MappingStore) (rows : List InputRow) :
    (calculate store rows).components_matched + ((calculate store rows).unmatched).length
      = rows.length := by
  simp only [calculate]
  have h := foldl_counts store rows { components_total := rows.length }
  split <;> simpa using h

/-! ## Shared structural lemmas about the matcher -/

theorem find_override_not_steel (category typ : String) (h : category ≠ "steel") :
    ∀ l : List (String × Option SteelOverride), find_type_override category typ l = none := by
  intro l
  induction l with
  | nil => rfl
  | cons p rest ih =>
    obtain ⟨tk, od⟩ := p
    simp [find_type_override, h, ih]

theorem find_coating_skip (alu : List (String × CoatingEntry)) (ia : Bool) (bl : String)
    (pre l2 : List (String × CoatingEntry))
    (hpre : ∀ p ∈ pre, strIn (lower p.1) bl = false) :
    find_coating alu ia bl (pre ++ l2) = find_coating alu ia bl l2 := by
  induction pre with
  | nil => rfl
  | cons p rest ih =>
    obtain ⟨k, v⟩ := p
    have h0 : strIn (lower k) bl = false := hpre (k, v) (List.mem_cons_self _ _)
    simp only [List.cons_append, find_coating, h0]
    exact ih fun q hq => hpre q (List.mem_cons_of_mem _ hq)

theorem find_coating_head (alu : List (String × CoatingEntry)) (ia : Bool) (bl ck : String)
    (cd : CoatingEntry) (rest : List (String × CoatingEntry))
    (h : strIn (lower ck) bl = true) :
    find_coating alu ia bl ((ck, cd) :: rest) =
      (if ia then
        match dictLookup ck alu with
        | some alu_data => coating_result alu_data
        | none => coating_result cd
      else coating_result cd) := by
  simp only [find_coating, h]
  rfl

theorem check_plastic_shape (p : Option PlasticRules) (bez : String) (r : MaterialMatch)
    (h : check_plastic p bez = some r) :
    r.matched = true ∧ r.match_type = "type_fallback" := by
  unfold check_plastic at h
  split at h
  · split at h
    · cases h; exact ⟨rfl, rfl⟩
    · exact Option.noConfusion h
  · exact Option.noConfusion h

theorem check_type_fallback_shape (store : MappingStore) (typ bez : String) (r : MaterialMatch)
    (h : check_type_fallback store typ bez = some r) :
    r.matched = true ∧ r.match_type = "type_fallback" := by
  unfold check_type_fallback at h
  split at h
  next f =>
    split at h
    · cases h; exact ⟨rfl, rfl⟩
    · split at h
      · cases h; exact ⟨rfl, rfl⟩
      · exact check_plastic_shape _ _ _ h
  next => exact check_plastic_shape _ _ _ h

theorem find_type_override_shape (cat typ : String) (l : List (String × Option SteelOverride))
    (r : MaterialMatch) (h : find_type_override cat typ l = some r) :
    r.matched = true ∧ r.match_type = "type_override" := by
  induction l with
  | nil => exact Option.noConfusion h
  | cons p rest ih =>
    obtain ⟨tk, od⟩ := p
    unfold find_type_override at h
    split at h
    · split at h
      · split at h
        · cases h; exact ⟨rfl, rfl⟩
        · exact ih h
      · exact ih h
    · exact ih h

theorem find_coating_shape (alu : List (String × CoatingEntry)) (ia : Bool) (bl : String)
    (l : List (String × CoatingEntry)) :
    (find_coating alu ia bl l).matched = true ∨ find_coating alu ia bl l = { matched := false } := by
  induction l with
  | nil => exact Or.inr rfl
  | cons p rest ih =>
    obtain ⟨k, v⟩ := p
    simp only [find_coating]
    split
    · split
      · cases dictLookup k alu <;> exact Or.inl rfl
      · exact Or.inl rfl
    · exact ih

/-! ## Claim theorems -/

/-- Claim C1: a material code classifying as stainless steel (the code `"304"`, or any code
containing `"X5CRNI"` case-insensitively) that is present as a key in the materials table is
matched by `match_material` to its exact-match base entry with match type `"exact"`, never to
the steel sheet-type override, for every type string (including override triggers such as
`"Kantblech"`). -/
theorem stainless_never_overridden (store : MappingStore)
    (material typ bezeichnung : String) (e : MatEntry)
    (hstain : strIn "X5CRNI" (upper material) = true ∨ upper material = "304")
    (hfix : strip material = material)
    (hlook : dictLookup material store.materials = some e) :
    match_material store material typ bezeichnung =
      { matched := true, oeko_id := some e.oeko_id, oeko_name := some e.oeko_name,
        ubp_per_kg := some e.ubp_per_kg, category := some (e.category.getD "unknown"),
        match_type := "exact" } := by
  have hcat : get_base_category material = "stainless_steel" := by
    rcases hstain with h | h <;> simp [get_base_category, h]
  have hnone : ∀ t, check_type_override store material t = none := by
    intro t
    unfold check_type_override
    rw [hcat]
    exact find_override_not_steel "stainless_steel" t (by decide) store.type_overrides
  have hne1 : ¬(material = "" ∨ material = " ") := by
    rintro (rfl | rfl)
    · rcases hstain with h | h <;> revert h <;> decide
    · rcases hstain with h | h <;> revert h <;> decide
  simp only [match_material, hfix]
  rw [if_neg hne1, hlook, hnone]

/-- Witness for C1: the stainless code `"304"` with the override-trigger type `"Kantblech"`
resolves to the stainless base entry, not the sheet override. -/
theorem stainless_never_overridden_witness :
    match_material demoStore "304" "Kantblech" "" =
      { matched := true, oeko_id := some "KBOB-MG05", oeko_name := some "Chromstahl rostfrei",
        ubp_per_kg := some 5210, category := some "stainless_steel", match_type := "exact" } :=
  stainless_never_overridden demoStore "304" "Kantblech" "" demoStainless
    (Or.inr rfl) rfl rfl

/-- Claim C2: every `ComponentResult` produced by `calculate` satisfies
`ubp_total = ubp_material + ubp_coating` exactly, regardless of match outcomes. -/
theorem component_ubp_total_is_sum (store : MappingStore) (rows : List InputRow) :
    ∀ c ∈ (calculate store rows).components,
      c.ubp_total = c.ubp_material + c.ubp_coating := by
  intro c hc
  rw [calculate_components] at hc
  obtain ⟨row, _, rfl⟩ := List.mem_map.mp hc
  rfl

/-- Witness for C2 at a concrete store and row. -/
theorem component_ubp_total_is_sum_witness :
    (calculate_component demoStore demoRow).ubp_total
      = (calculate_component demoStore demoRow).ubp_material
        + (calculate_component demoStore demoRow).ubp_coating :=
  component_ubp_total_is_sum demoStore [demoRow] (calculate_component demoStore demoRow)
    (by rw [calculate_components]; exact List.mem_singleton.mpr rfl)

/-- Claim C3: in every `ComponentResult` produced by `calculate`, an unmatched material
forces `ubp_material = 0` and an unmatched coating forces `ubp_coating = 0`. -/
theorem unmatched_component_zero_ubp (store : MappingStore) (rows : List InputRow) :
    ∀ c ∈ (calculate store rows).components,
      (c.material_matched = false → c.ubp_material = 0)
      ∧ (c.coating_matched = false → c.ubp_coating = 0) := by
  intro c hc
  rw [calculate_components] at hc
  obtain ⟨row, _, rfl⟩ := List.mem_map.mp hc
  constructor
  · intro h
    simp only [calculate_component] at h ⊢
    simp [h]
  · intro h
    simp only [calculate_component] at h ⊢
    simp [h]

/-- Witness for C3: a row with an unmapped material code and no coating yields zero
material and coating impact. -/
theorem unmatched_component_zero_ubp_witness :
    (calculate_component demoStore demoRowUnmatched).ubp_material = 0
    ∧ (calculate_component demoStore demoRowUnmatched).ubp_coating = 0 := by
  have h := unmatched_component_zero_ubp demoStore [demoRowUnmatched]
    (calculate_component demoStore demoRowUnmatched)
    (by rw [calculate_components]; exact List.mem_singleton.mpr rfl)
  exact ⟨h.1 rfl, h.2 rfl⟩

/-- Claim C4: the grand totals of `calculate` equal the unconditional sums over the
components sequence: `total_ubp` sums `ubp_total`, `total_weight_kg` sums
`ges_gewicht_kg`, and `total_area_m2` sums `flaeche_m2`, regardless of match outcome. -/
theorem grand_totals_are_sums (store : MappingStore) (rows : List InputRow) :
    (calculate store rows).total_ubp
        = ((calculate store rows).components.map ComponentResult.ubp_total).sum
    ∧ (calculate store rows).total_weight_kg
        = ((calculate store rows).components.map ComponentResult.ges_gewicht_kg).sum
    ∧ (calculate store rows).total_area_m2
        = ((calculate store rows).components.map ComponentResult.flaeche_m2).sum := by
  rw [calculate_components]
  refine ⟨?_, ?_, ?_⟩ <;> simp only [calculate] <;> split <;>
    simp [foldl_total_ubp, foldl_total_weight, foldl_total_area, List.map_map, Function.comp_def]

/-- Claim C5: `match_rate` equals `components_matched / components_total` when
`components_total > 0`, and is the defined value `0` on an empty input sequence. -/
theorem match_rate_defined (store : MappingStore) (rows : List InputRow) :
    ((calculate store rows).components_total > 0 →
      (calculate store rows).match_rate
        = ((calculate store rows).components_matched : ℚ)
          / ((calculate store rows).components_total : ℚ))
    ∧ (rows = [] → (calculate store rows).match_rate = 0) := by
  constructor
  · intro h
    rw [calculate_components_total] at h
    simp only [calculate, foldl_components_total]
    split
    · simp
    · next hn =>
      exact absurd (by simpa [foldl_components_total] using h) hn
  · rintro rfl
    rfl

/-- Witness for C5: the quotient form on a one-row input, and `0` on the empty input. -/
theorem match_rate_defined_witness :
    ((calculate demoStore [demoRow]).match_rate
      = ((calculate demoStore [demoRow]).components_matched : ℚ)
        / ((calculate demoStore [demoRow]).components_total : ℚ))
    ∧ (calculate demoStore ([] : List InputRow)).match_rate = 0 :=
  ⟨(match_rate_defined demoStore [demoRow]).1 (by rw [calculate_components_total]; decide),
   (match_rate_defined demoStore []).2 rfl⟩

/-- Claim C6: a trimmed, non-empty material code that is not a verbatim key of the
materials table yields unmatched with reason `"no_mapping"` without consulting the
type/keyword fallback chain (the result is fixed whatever the fallback tables hold),
while an absent material code routes directly to the fallback chain, whose empty
outcome is unmatched with reason `"empty"`. -/
theorem no_mapping_vs_fallback (store : MappingStore) (material typ bezeichnung : String) :
    (strip material ≠ "" → strip material ≠ " " →
      dictLookup (strip material) store.materials = none →
      match_material store material typ bezeichnung
        = { matched := false, match_type := "no_mapping" })
    ∧ (strip material = "" →
      match_material store material typ bezeichnung
        = (check_type_fallback store (strip typ) (strip bezeichnung)).getD
            { matched := false, match_type := "empty" }) := by
  constructor
  · intro h1 h2 hlook
    simp only [match_material]
    rw [if_neg (by rintro (h | h) <;> simp_all), hlook]
  · intro h
    simp only [match_material, h]
    cases hc : check_type_fallback store (strip typ) (strip bezeichnung) <;> simp [hc]

/-- Witness for C6: an unmapped code is `"no_mapping"` even with a fallback-triggering
type, and an absent code goes straight to the fallback chain. -/
theorem no_mapping_vs_fallback_witness :
    match_material demoStore "UNOBTAINIUM" "Kantblech" ""
        = { matched := false, match_type := "no_mapping" }
    ∧ match_material demoStore "" "Sechskantschrauben" "M8x20"
        = (check_type_fallback demoStore (strip "Sechskantschrauben") (strip "M8x20")).getD
            { matched := false, match_type := "empty" } :=
  ⟨(no_mapping_vs_fallback demoStore "UNOBTAINIUM" "Kantblech" "").1 (by decide) (by decide) rfl,
   (no_mapping_vs_fallback demoStore "" "Sechskantschrauben" "M8x20").2 rfl⟩

/-- Claim C7: on a non-empty descriptor, `match_coating` picks the first coating rule in
configured order whose key occurs case-insensitively in the descriptor; the winning rule
takes its aluminum override entry exactly when the material classifies as aluminum by
`is_aluminum` and the override table has the key, else its base entry; when no rule key
occurs the result is unmatched. -/
theorem coating_first_match (store : MappingStore) (beschichtung material : String)
    (hne : strip beschichtung ≠ "") :
    (∀ pre ck cd post,
      store.coatings = pre ++ (ck, cd) :: post →
      (∀ p ∈ pre, strIn (lower p.1) (lower beschichtung) = false) →
      strIn (lower ck) (lower beschichtung) = true →
      match_coating store beschichtung material =
        (if is_aluminum material then
          match dictLookup ck store.coating_alu_override with
          | some alu_data => coating_result alu_data
          | none => coating_result cd
        else coating_result cd))
    ∧ ((∀ p ∈ store.coatings, strIn (lower p.1) (lower beschichtung) = false) →
      match_coating store beschichtung material = { matched := false }) := by
  have hb : ¬(beschichtung = "" ∨ strip beschichtung = "") := by
    rintro (rfl | h)
    · exact hne rfl
    · exact hne h
  constructor
  · intro pre ck cd post hdec hpre hhit
    simp only [match_coating]
    rw [if_neg hb, hdec, find_coating_skip _ _ _ _ _ hpre, find_coating_head _ _ _ _ _ _ hhit]
  · intro hall
    simp only [match_coating]
    rw [if_neg hb]
    have h := find_coating_skip store.coating_alu_override (is_aluminum material)
      (lower beschichtung) store.coatings [] hall
    rw [List.append_nil] at h
    rw [h]
    rfl

/-- Witness for C7: `"Pulverbeschichtet RAL9006"` skips the `"verzink"` rule, wins on
`"pulverb"`, and the aluminum material `"EN AW-6060"` takes the aluminum override; a
descriptor hitting no rule is unmatched. -/
theorem coating_first_match_witness :
    (match_coating demoStore "Pulverbeschichtet RAL9006" "EN AW-6060" =
      (if is_aluminum "EN AW-6060" then
        match dictLookup "pulverb" demoStore.coating_alu_override with
        | some alu_data => coating_result alu_data
        | none =>
          coating_result { oeko_id := "KBOB-BE02", oeko_name := "Pulverbeschichtung", ubp_per_m2 := 160 }
      else coating_result { oeko_id := "KBOB-BE02", oeko_name := "Pulverbeschichtung", ubp_per_m2 := 160 }))
    ∧ match_coating demoStore "eloxiert" "EN AW-6060" = { matched := false } :=
  ⟨(coating_first_match demoStore "Pulverbeschichtet RAL9006" "EN AW-6060" (by decide)).1
      [("verzink", { oeko_id := "KBOB-BE01", oeko_name := "Feuerverzinkung", ubp_per_m2 := 81 })]
      "pulverb" { oeko_id := "KBOB-BE02", oeko_name := "Pulverbeschichtung", ubp_per_m2 := 160 } []
      rfl (by decide) (by decide),
   (coating_first_match demoStore "eloxiert" "EN AW-6060" (by decide)).2 (by decide)⟩

/-- Counterexample to C8 as stated: with `"S235JR"` stored as a key, the code `"s235jr"` —
differing from the key only in letter case — does NOT resolve to the entry
(`match_material` is case-sensitive after stripping; `_normalize` is never called). -/
theorem case_sensitive_lookup_cex :
    (match_material demoStore "s235jr" "" "").matched = false
    ∧ dictLookup "S235JR" demoStore.materials ≠ none
    ∧ upper "s235jr" = upper "S235JR" := by decide

/-- Amended C8: lookup normalizes surrounding whitespace only — a material code trimming
to a stored key behaves exactly like the key itself; letter case is not normalized. -/
theorem lookup_strips_whitespace (store : MappingStore) (m key typ bez : String)
    (h1 : strip m = key) (h2 : strip key = key) :
    match_material store m typ bez = match_material store key typ bez := by
  simp only [match_material, h1, h2]

/-- Witness for amended C8: `"  S235JR "` resolves exactly like `"S235JR"`. -/
theorem lookup_strips_whitespace_witness :
    match_material demoStore "  S235JR " "" "" = match_material demoStore "S235JR" "" "" :=
  lookup_strips_whitespace demoStore "  S235JR " "S235JR" "" "" (by decide) (by decide)

/-- Claim C9: for every structurally well-formed store and all string inputs, the matcher
classifies totally — `match_material` returns a matched result tagged `"exact"`,
`"type_override"` or `"type_fallback"`, or an unmatched result with reason `"empty"` or
`"no_mapping"`; `match_coating` returns a matched result or the plain unmatched record.
(Both functions are total Lean definitions, so no input can raise.) -/
theorem matcher_never_fails (store : MappingStore)
    (material typ bezeichnung beschichtung mat2 : String) :
    ((match_material store material typ bezeichnung).matched = true
        ∧ (match_material store material typ bezeichnung).match_type
            ∈ (["exact", "type_override", "type_fallback"] : List String)
      ∨ (match_material store material typ bezeichnung).matched = false
        ∧ (match_material store material typ bezeichnung).match_type
            ∈ (["empty", "no_mapping"] : List String))
    ∧ ((match_coating store beschichtung mat2).matched = true
      ∨ match_coating store beschichtung mat2 = { matched := false }) := by
  constructor
  · simp only [match_material]
    split
    · cases hf : check_type_fallback store (strip typ) (strip bezeichnung) with
      | none =>
        right
        refine ⟨rfl, ?_⟩
        show ("empty" : String) ∈ (["empty", "no_mapping"] : List String)
        decide
      | some m =>
        left
        have hs := check_type_fallback_shape _ _ _ _ hf
        refine ⟨hs.1, ?_⟩
        show m.match_type ∈ (["exact", "type_override", "type_fallback"] : List String)
        rw [hs.2]; decide
    · cases hl : dictLookup (strip material) store.materials with
      | none =>
        right
        refine ⟨rfl, ?_⟩
        show ("no_mapping" : String) ∈ (["empty", "no_mapping"] : List String)
        decide
      | some e =>
        cases ho : check_type_override store (strip material) (strip typ) with
        | none =>
          left
          refine ⟨rfl, ?_⟩
          show ("exact" : String) ∈ (["exact", "type_override", "type_fallback"] : List String)
          decide
        | some m =>
          left
          have hs := find_type_override_shape _ _ _ _ ho
          refine ⟨hs.1, ?_⟩
          show m.match_type ∈ (["exact", "type_override", "type_fallback"] : List String)
          rw [hs.2]; decide
  · simp only [match_coating]
    split
    · exact Or.inr rfl
    · exact find_coating_shape _ _ _ _

/-- Claim C10: `components_total` equals the length of the components list, and
`components_matched` plus the length of the unmatched list equals `components_total` —
each input record lands in exactly one of the two via its material-match outcome. -/
theorem component_accounting (store : MappingStore) (rows : List InputRow) :
    (calculate store rows).components_total = (calculate store rows).components.length
    ∧ (calculate store rows).components_matched + ((calculate store rows).unmatched).length
        = (calculate store rows).components_total := by
  refine ⟨?_, ?_⟩
  · rw [calculate_components, calculate_components_total, List.length_map]
  · rw [calculate_counts, calculate_components_total]

end EcoLog
